import Mathlib

/-!
Shallow embedding of the Speech-to-Sign matcher in `app.py`.

Strings are modelled with Lean `String`, with the character-level operations
(`lower`, `split`, substring search, `strip`) implemented over `String.data`.
The inputs of interest are ASCII, where Lean's `Char.toLower`, `Char.isAlpha`,
`Char.isWhitespace` and `Char.isAlphanum` agree with Python's `str.lower`,
`str.isalpha`, `str.split()` whitespace and the regex class `[A-Za-z0-9\s]`.
Confidence scores are modelled as exact rationals (they are only ever compared,
never computed with, so floating-point rounding plays no role).
-/

/-- Embeds the `SignData` TypedDict of `app.py`.  Only the `"hello"` entry of
the table carries the optional animation fields, so they are `Option`s. -/
structure SignData where
  word : String
  category : String
  synonyms : List String
  description : String
  animation_type : Option String
  animation_data : Option (List (String × String))
deriving DecidableEq, Repr

/-- Embeds the per-request match dictionaries built by `local_match_signs`,
`gemini_match_signs` and the forced-fingerspell branch of `match_signs`.
`letters` is `none` for vocabulary matches (the Python dict has no `letters`
key there) and `some _` for fingerspelled entries. -/
structure MatchResult where
  word : String
  category : String
  synonyms : List String
  description : String
  animation_type : Option String
  animation_data : Option (List (String × String))
  letters : Option (List Char)
  confidence : Rat
  matched_from : String
deriving DecidableEq, Repr

/-- The literal `1.0` of app.py as an exact rational. -/
def conf1 : Rat := ⟨1, 1, by decide, by decide⟩

/-- The literal `0.85` of app.py as an exact rational (17/20). -/
def conf085 : Rat := ⟨17, 20, by decide, by decide⟩

/-- The literal `0.5` of app.py as an exact rational (1/2). -/
def conf05 : Rat := ⟨1, 2, by decide, by decide⟩

/-- `{**sign_data, "confidence": c, "matched_from": mf}` for a vocabulary entry. -/
def mkVocabMatch (d : SignData) (c : Rat) (mf : String) : MatchResult :=
  { word := d.word, category := d.category, synonyms := d.synonyms,
    description := d.description, animation_type := d.animation_type,
    animation_data := d.animation_data, letters := none,
    confidence := c, matched_from := mf }

/-- The fingerspelled dict literal built in `local_match_signs` (confidence 0.5)
and in the forced-fingerspell branch of `match_signs` (confidence 1.0). -/
def mkFingerspell (w : String) (ls : List Char) (c : Rat) : MatchResult :=
  { word := w, category := "fingerspelled", synonyms := [],
    description := "Finger-spell the word \x27" ++ w ++ "\x27",
    animation_type := none, animation_data := none, letters := some ls,
    confidence := c, matched_from := w }

def vocabEntry0 : String × SignData :=
  ("hello", { word := "hello", category := "greetings", synonyms := ["hi", "hey", "greetings"], description := "Wave hand near face", animation_type := some "css", animation_data := some [("class", "wave-animation")] })

def vocabEntry1 : String × SignData :=
  ("goodbye", { word := "goodbye", category := "greetings", synonyms := ["bye", "farewell", "see you", "later"], description := "Wave hand away from body", animation_type := none, animation_data := none })

def vocabEntry2 : String × SignData :=
  ("thank you", { word := "thank you", category := "greetings", synonyms := ["thanks", "appreciate", "grateful"], description := "Hand moves from chin outward", animation_type := none, animation_data := none })

def vocabEntry3 : String × SignData :=
  ("please", { word := "please", category := "greetings", synonyms := ["kindly"], description := "Circular motion on chest", animation_type := none, animation_data := none })

def vocabEntry4 : String × SignData :=
  ("sorry", { word := "sorry", category := "greetings", synonyms := ["apologize", "apologies", "my bad"], description := "Fist circles on chest", animation_type := none, animation_data := none })

def vocabEntry5 : String × SignData :=
  ("good morning", { word := "good morning", category := "greetings", synonyms := ["morning"], description := "Point to sky then wave", animation_type := none, animation_data := none })

def vocabEntry6 : String × SignData :=
  ("good afternoon", { word := "good afternoon", category := "greetings", synonyms := ["afternoon"], description := "Point to sun then wave", animation_type := none, animation_data := none })

def vocabEntry7 : String × SignData :=
  ("good evening", { word := "good evening", category := "greetings", synonyms := ["evening"], description := "Point to horizon then wave", animation_type := none, animation_data := none })

def vocabEntry8 : String × SignData :=
  ("good night", { word := "good night", category := "greetings", synonyms := ["night", "sleep well"], description := "Rest head on hands", animation_type := none, animation_data := none })

def vocabEntry9 : String × SignData :=
  ("nice to meet you", { word := "nice to meet you", category := "greetings", synonyms := ["pleased to meet you"], description := "Shake hands gesture", animation_type := none, animation_data := none })

def vocabEntry10 : String × SignData :=
  ("how are you", { word := "how are you", category := "greetings", synonyms := ["how do you do", "how\x27s it going"], description := "Point to self then others", animation_type := none, animation_data := none })

def vocabEntry11 : String × SignData :=
  ("i\x27m fine", { word := "i\x27m fine", category := "greetings", synonyms := ["i\x27m good", "i\x27m well", "i\x27m okay"], description := "Thumbs up with smile gesture", animation_type := none, animation_data := none })

def vocabEntry12 : String × SignData :=
  ("have a good day", { word := "have a good day", category := "greetings", synonyms := ["have a nice day"], description := "Wave with both hands", animation_type := none, animation_data := none })

def vocabEntry13 : String × SignData :=
  ("yes", { word := "yes", category := "responses", synonyms := ["yeah", "yep", "correct", "right", "affirmative", "okay", "ok"], description := "Fist nods up and down", animation_type := none, animation_data := none })

def vocabEntry14 : String × SignData :=
  ("no", { word := "no", category := "responses", synonyms := ["nope", "negative", "wrong", "incorrect"], description := "Two fingers close to thumb", animation_type := none, animation_data := none })

def vocabEntry15 : String × SignData :=
  ("maybe", { word := "maybe", category := "responses", synonyms := ["perhaps", "possibly", "might"], description := "Hands alternate up and down", animation_type := none, animation_data := none })

def vocabEntry16 : String × SignData :=
  ("understand", { word := "understand", category := "responses", synonyms := ["get it", "comprehend", "got it", "clear", "makes sense"], description := "Index finger flicks up near forehead", animation_type := none, animation_data := none })

def vocabEntry17 : String × SignData :=
  ("confused", { word := "confused", category := "responses", synonyms := ["don\x27t understand", "unclear", "lost", "puzzled"], description := "Curved fingers alternate near forehead", animation_type := none, animation_data := none })

def vocabEntry18 : String × SignData :=
  ("i know", { word := "i know", category := "responses", synonyms := ["i understand", "got it"], description := "Tap forehead with index finger", animation_type := none, animation_data := none })

def vocabEntry19 : String × SignData :=
  ("i don\x27t know", { word := "i don\x27t know", category := "responses", synonyms := ["not sure", "uncertain"], description := "Shrug shoulders with palms up", animation_type := none, animation_data := none })

def vocabEntry20 : String × SignData :=
  ("wait", { word := "wait", category := "responses", synonyms := ["hold on", "just a moment"], description := "Palm facing out, fingers spread", animation_type := none, animation_data := none })

def vocabEntry21 : String × SignData :=
  ("question", { word := "question", category := "actions", synonyms := ["ask", "query", "inquire"], description := "Index finger draws question mark", animation_type := none, animation_data := none })

def vocabEntry22 : String × SignData :=
  ("answer", { word := "answer", category := "actions", synonyms := ["reply", "respond", "response"], description := "Index fingers point outward from mouth", animation_type := none, animation_data := none })

def vocabEntry23 : String × SignData :=
  ("help", { word := "help", category := "actions", synonyms := ["assist", "aid", "support"], description := "Thumbs up on flat palm, lift up", animation_type := none, animation_data := none })

def vocabEntry24 : String × SignData :=
  ("repeat", { word := "repeat", category := "actions", synonyms := ["again", "say again", "one more time"], description := "Curved hand flips over", animation_type := none, animation_data := none })

def vocabEntry25 : String × SignData :=
  ("stop", { word := "stop", category := "actions", synonyms := ["wait", "hold", "pause", "halt"], description := "Flat hand strikes palm", animation_type := none, animation_data := none })

def vocabEntry26 : String × SignData :=
  ("start", { word := "start", category := "actions", synonyms := ["begin", "go", "commence"], description := "Index finger twists between fingers", animation_type := none, animation_data := none })

def vocabEntry27 : String × SignData :=
  ("finish", { word := "finish", category := "actions", synonyms := ["done", "complete", "end", "finished", "over"], description := "Open hands flip outward", animation_type := none, animation_data := none })

def vocabEntry28 : String × SignData :=
  ("read", { word := "read", category := "actions", synonyms := ["reading"], description := "Two fingers scan across palm", animation_type := none, animation_data := none })

def vocabEntry29 : String × SignData :=
  ("write", { word := "write", category := "actions", synonyms := ["writing", "note"], description := "Pinched fingers write on palm", animation_type := none, animation_data := none })

def vocabEntry30 : String × SignData :=
  ("listen", { word := "listen", category := "actions", synonyms := ["hear", "hearing", "listening"], description := "Cupped hand to ear", animation_type := none, animation_data := none })

def vocabEntry31 : String × SignData :=
  ("speak", { word := "speak", category := "actions", synonyms := ["talk", "say", "tell", "talking", "speaking"], description := "Four fingers tap from chin", animation_type := none, animation_data := none })

def vocabEntry32 : String × SignData :=
  ("think", { word := "think", category := "actions", synonyms := ["thinking", "consider", "thought"], description := "Index finger circles at temple", animation_type := none, animation_data := none })

def vocabEntry33 : String × SignData :=
  ("learn", { word := "learn", category := "actions", synonyms := ["study", "learning", "studying"], description := "Fingers pull from palm to forehead", animation_type := none, animation_data := none })

def vocabEntry34 : String × SignData :=
  ("teach", { word := "teach", category := "actions", synonyms := ["teaching", "instruct", "explain"], description := "Both hands pull from forehead outward", animation_type := none, animation_data := none })

def vocabEntry35 : String × SignData :=
  ("work", { word := "work", category := "actions", synonyms := ["working", "job"], description := "Fists alternate pounding", animation_type := none, animation_data := none })

def vocabEntry36 : String × SignData :=
  ("play", { word := "play", category := "actions", synonyms := ["playing", "fun"], description := "Fingers wiggle like playing", animation_type := none, animation_data := none })

def vocabEntry37 : String × SignData :=
  ("eat", { word := "eat", category := "actions", synonyms := ["eating", "food"], description := "Hand to mouth", animation_type := none, animation_data := none })

def vocabEntry38 : String × SignData :=
  ("drink", { word := "drink", category := "actions", synonyms := ["drinking"], description := "Tilt hand to mouth", animation_type := none, animation_data := none })

def vocabEntry39 : String × SignData :=
  ("sleep", { word := "sleep", category := "actions", synonyms := ["sleeping", "rest"], description := "Rest head on hands", animation_type := none, animation_data := none })

def vocabEntry40 : String × SignData :=
  ("walk", { word := "walk", category := "actions", synonyms := ["walking"], description := "Two fingers walk on other hand", animation_type := none, animation_data := none })

def vocabEntry41 : String × SignData :=
  ("run", { word := "run", category := "actions", synonyms := ["running"], description := "Fingers run quickly", animation_type := none, animation_data := none })

def vocabEntry42 : String × SignData :=
  ("teacher", { word := "teacher", category := "nouns", synonyms := ["instructor", "professor", "educator"], description := "Teach sign plus person marker", animation_type := none, animation_data := none })

def vocabEntry43 : String × SignData :=
  ("student", { word := "student", category := "nouns", synonyms := ["learner", "pupil"], description := "Learn sign plus person marker", animation_type := none, animation_data := none })

def vocabEntry44 : String × SignData :=
  ("person", { word := "person", category := "nouns", synonyms := ["people", "individual", "someone"], description := "Point to person", animation_type := none, animation_data := none })

def vocabEntry45 : String × SignData :=
  ("man", { word := "man", category := "nouns", synonyms := ["male", "guy", "boy"], description := "Flat hand strikes forehead", animation_type := none, animation_data := none })

def vocabEntry46 : String × SignData :=
  ("woman", { word := "woman", category := "nouns", synonyms := ["female", "lady", "girl"], description := "Brush hair back", animation_type := none, animation_data := none })

def vocabEntry47 : String × SignData :=
  ("child", { word := "child", category := "nouns", synonyms := ["kid", "children", "baby"], description := "Small height gesture", animation_type := none, animation_data := none })

def vocabEntry48 : String × SignData :=
  ("friend", { word := "friend", category := "nouns", synonyms := ["buddy", "pal"], description := "Hook fingers together", animation_type := none, animation_data := none })

def vocabEntry49 : String × SignData :=
  ("family", { word := "family", category := "nouns", synonyms := ["relatives"], description := "F hands circle together", animation_type := none, animation_data := none })

def vocabEntry50 : String × SignData :=
  ("mother", { word := "mother", category := "nouns", synonyms := ["mom", "mama"], description := "Thumb brushes chin", animation_type := none, animation_data := none })

def vocabEntry51 : String × SignData :=
  ("father", { word := "father", category := "nouns", synonyms := ["dad", "papa"], description := "F hand strikes forehead", animation_type := none, animation_data := none })

def vocabEntry52 : String × SignData :=
  ("brother", { word := "brother", category := "nouns", synonyms := ["bro"], description := "B hand strikes forehead", animation_type := none, animation_data := none })

def vocabEntry53 : String × SignData :=
  ("sister", { word := "sister", category := "nouns", synonyms := ["sis"], description := "S hand brushes chin", animation_type := none, animation_data := none })

def vocabEntry54 : String × SignData :=
  ("home", { word := "home", category := "nouns", synonyms := ["house"], description := "Fingers form roof over head", animation_type := none, animation_data := none })

def vocabEntry55 : String × SignData :=
  ("school", { word := "school", category := "nouns", synonyms := ["classroom"], description := "C hands circle outward", animation_type := none, animation_data := none })

def vocabEntry56 : String × SignData :=
  ("class", { word := "class", category := "nouns", synonyms := ["classroom", "course", "lesson"], description := "C hands circle outward", animation_type := none, animation_data := none })

def vocabEntry57 : String × SignData :=
  ("bathroom", { word := "bathroom", category := "nouns", synonyms := ["restroom", "toilet"], description := "T hand waves", animation_type := none, animation_data := none })

def vocabEntry58 : String × SignData :=
  ("kitchen", { word := "kitchen", category := "nouns", synonyms := ["cook"], description := "Stir motion", animation_type := none, animation_data := none })

def vocabEntry59 : String × SignData :=
  ("bedroom", { word := "bedroom", category := "nouns", synonyms := ["bed"], description := "Rest head on hands", animation_type := none, animation_data := none })

def vocabEntry60 : String × SignData :=
  ("book", { word := "book", category := "nouns", synonyms := ["textbook"], description := "Palms open like book", animation_type := none, animation_data := none })

def vocabEntry61 : String × SignData :=
  ("paper", { word := "paper", category := "nouns", synonyms := ["document", "sheet"], description := "Palms brush together twice", animation_type := none, animation_data := none })

def vocabEntry62 : String × SignData :=
  ("test", { word := "test", category := "nouns", synonyms := ["exam", "quiz", "examination"], description := "X hands pull down and open", animation_type := none, animation_data := none })

def vocabEntry63 : String × SignData :=
  ("homework", { word := "homework", category := "nouns", synonyms := ["assignment", "work"], description := "Home sign plus work sign", animation_type := none, animation_data := none })

def vocabEntry64 : String × SignData :=
  ("computer", { word := "computer", category := "nouns", synonyms := ["laptop", "pc"], description := "Type on keyboard", animation_type := none, animation_data := none })

def vocabEntry65 : String × SignData :=
  ("phone", { word := "phone", category := "nouns", synonyms := ["telephone", "cell phone"], description := "Hand to ear like phone", animation_type := none, animation_data := none })

def vocabEntry66 : String × SignData :=
  ("table", { word := "table", category := "nouns", synonyms := ["desk"], description := "Flat hand horizontal", animation_type := none, animation_data := none })

def vocabEntry67 : String × SignData :=
  ("chair", { word := "chair", category := "nouns", synonyms := ["seat"], description := "Sit down gesture", animation_type := none, animation_data := none })

def vocabEntry68 : String × SignData :=
  ("door", { word := "door", category := "nouns", synonyms := ["entrance"], description := "Open door motion", animation_type := none, animation_data := none })

def vocabEntry69 : String × SignData :=
  ("window", { word := "window", category := "nouns", synonyms := ["glass"], description := "Square window frame", animation_type := none, animation_data := none })

def vocabEntry70 : String × SignData :=
  ("water", { word := "water", category := "nouns", synonyms := ["drink"], description := "W hand waves", animation_type := none, animation_data := none })

def vocabEntry71 : String × SignData :=
  ("food", { word := "food", category := "nouns", synonyms := ["eat"], description := "Hand to mouth", animation_type := none, animation_data := none })

def vocabEntry72 : String × SignData :=
  ("money", { word := "money", category := "nouns", synonyms := ["cash", "dollar"], description := "Rub thumb and fingers", animation_type := none, animation_data := none })

def vocabEntry73 : String × SignData :=
  ("time", { word := "time", category := "nouns", synonyms := ["clock", "hour"], description := "Point to watch", animation_type := none, animation_data := none })

def vocabEntry74 : String × SignData :=
  ("day", { word := "day", category := "nouns", synonyms := ["today"], description := "Circle overhead", animation_type := none, animation_data := none })

def vocabEntry75 : String × SignData :=
  ("night", { word := "night", category := "nouns", synonyms := ["dark"], description := "Rest head on hands", animation_type := none, animation_data := none })

def vocabEntry76 : String × SignData :=
  ("good", { word := "good", category := "descriptors", synonyms := ["great", "nice", "well", "excellent", "fine"], description := "Flat hand from chin to palm", animation_type := none, animation_data := none })

def vocabEntry77 : String × SignData :=
  ("bad", { word := "bad", category := "descriptors", synonyms := ["poor", "terrible", "awful", "wrong"], description := "Flat hand from chin flips down", animation_type := none, animation_data := none })

def vocabEntry78 : String × SignData :=
  ("easy", { word := "easy", category := "descriptors", synonyms := ["simple", "not hard"], description := "Curved fingers brush upward", animation_type := none, animation_data := none })

def vocabEntry79 : String × SignData :=
  ("hard", { word := "hard", category := "descriptors", synonyms := ["difficult", "tough", "challenging"], description := "Bent V hands knock together", animation_type := none, animation_data := none })

def vocabEntry80 : String × SignData :=
  ("fast", { word := "fast", category := "descriptors", synonyms := ["quick", "quickly", "rapid", "speed"], description := "L hands pull back quickly", animation_type := none, animation_data := none })

def vocabEntry81 : String × SignData :=
  ("slow", { word := "slow", category := "descriptors", synonyms := ["slowly", "slower"], description := "Hand drags up back of hand", animation_type := none, animation_data := none })

def vocabEntry82 : String × SignData :=
  ("important", { word := "important", category := "descriptors", synonyms := ["significant", "key", "critical", "essential"], description := "F hands circle up to center", animation_type := none, animation_data := none })

def vocabEntry83 : String × SignData :=
  ("big", { word := "big", category := "descriptors", synonyms := ["large", "huge"], description := "Hands spread apart", animation_type := none, animation_data := none })

def vocabEntry84 : String × SignData :=
  ("small", { word := "small", category := "descriptors", synonyms := ["little", "tiny"], description := "Pinch fingers close", animation_type := none, animation_data := none })

def vocabEntry85 : String × SignData :=
  ("hot", { word := "hot", category := "descriptors", synonyms := ["warm", "heat"], description := "Wipe brow", animation_type := none, animation_data := none })

def vocabEntry86 : String × SignData :=
  ("cold", { word := "cold", category := "descriptors", synonyms := ["cool", "freezing"], description := "Shiver motion", animation_type := none, animation_data := none })

def vocabEntry87 : String × SignData :=
  ("happy", { word := "happy", category := "descriptors", synonyms := ["glad", "joyful"], description := "Smile with hands", animation_type := none, animation_data := none })

def vocabEntry88 : String × SignData :=
  ("sad", { word := "sad", category := "descriptors", synonyms := ["unhappy", "sorry"], description := "Frown with hands", animation_type := none, animation_data := none })

def vocabEntry89 : String × SignData :=
  ("tired", { word := "tired", category := "descriptors", synonyms := ["sleepy", "exhausted"], description := "Rest head on hands", animation_type := none, animation_data := none })

def vocabEntry90 : String × SignData :=
  ("hungry", { word := "hungry", category := "descriptors", synonyms := ["starving"], description := "Hand to stomach", animation_type := none, animation_data := none })

def vocabEntry91 : String × SignData :=
  ("thirsty", { word := "thirsty", category := "descriptors", synonyms := ["dry"], description := "Hand to mouth like drinking", animation_type := none, animation_data := none })

def vocabEntry92 : String × SignData :=
  ("what", { word := "what", category := "questions", synonyms := [], description := "Index finger brushes across palm", animation_type := none, animation_data := none })

def vocabEntry93 : String × SignData :=
  ("where", { word := "where", category := "questions", synonyms := [], description := "Index finger waves side to side", animation_type := none, animation_data := none })

def vocabEntry94 : String × SignData :=
  ("when", { word := "when", category := "questions", synonyms := [], description := "Index finger circles then touches", animation_type := none, animation_data := none })

def vocabEntry95 : String × SignData :=
  ("why", { word := "why", category := "questions", synonyms := [], description := "Fingers touch forehead, pull to Y", animation_type := none, animation_data := none })

def vocabEntry96 : String × SignData :=
  ("how", { word := "how", category := "questions", synonyms := [], description := "Knuckles roll outward and open", animation_type := none, animation_data := none })

def vocabEntry97 : String × SignData :=
  ("who", { word := "who", category := "questions", synonyms := [], description := "Index finger circles at lips", animation_type := none, animation_data := none })

def vocabEntry98 : String × SignData :=
  ("which", { word := "which", category := "questions", synonyms := ["what one"], description := "Point between options", animation_type := none, animation_data := none })

def vocabEntry99 : String × SignData :=
  ("one", { word := "one", category := "numbers", synonyms := ["1"], description := "Index finger up", animation_type := none, animation_data := none })

def vocabEntry100 : String × SignData :=
  ("two", { word := "two", category := "numbers", synonyms := ["2"], description := "Index and middle fingers up", animation_type := none, animation_data := none })

def vocabEntry101 : String × SignData :=
  ("three", { word := "three", category := "numbers", synonyms := ["3"], description := "Three fingers up", animation_type := none, animation_data := none })

def vocabEntry102 : String × SignData :=
  ("four", { word := "four", category := "numbers", synonyms := ["4"], description := "Four fingers up", animation_type := none, animation_data := none })

def vocabEntry103 : String × SignData :=
  ("five", { word := "five", category := "numbers", synonyms := ["5"], description := "Five fingers up", animation_type := none, animation_data := none })

def vocabEntry104 : String × SignData :=
  ("ten", { word := "ten", category := "numbers", synonyms := ["10"], description := "Cross fists", animation_type := none, animation_data := none })

def vocabEntry105 : String × SignData :=
  ("red", { word := "red", category := "colors", synonyms := [], description := "R hand waves", animation_type := none, animation_data := none })

def vocabEntry106 : String × SignData :=
  ("blue", { word := "blue", category := "colors", synonyms := [], description := "B hand waves", animation_type := none, animation_data := none })

def vocabEntry107 : String × SignData :=
  ("green", { word := "green", category := "colors", synonyms := [], description := "G hand waves", animation_type := none, animation_data := none })

def vocabEntry108 : String × SignData :=
  ("yellow", { word := "yellow", category := "colors", synonyms := [], description := "Y hand waves", animation_type := none, animation_data := none })

def vocabEntry109 : String × SignData :=
  ("black", { word := "black", category := "colors", synonyms := ["dark"], description := "Brush hair back", animation_type := none, animation_data := none })

def vocabEntry110 : String × SignData :=
  ("white", { word := "white", category := "colors", synonyms := ["light"], description := "Brush palm", animation_type := none, animation_data := none })

def vocabEntry111 : String × SignData :=
  ("i love you", { word := "i love you", category := "phrases", synonyms := ["love you"], description := "I-L-Y fingers", animation_type := none, animation_data := none })

def vocabEntry112 : String × SignData :=
  ("what\x27s up", { word := "what\x27s up", category := "phrases", synonyms := ["sup", "how\x27s it going"], description := "Wiggle fingers up", animation_type := none, animation_data := none })

def vocabEntry113 : String × SignData :=
  ("see you later", { word := "see you later", category := "phrases", synonyms := ["bye", "later"], description := "Wave with both hands", animation_type := none, animation_data := none })

def vocabEntry114 : String × SignData :=
  ("take care", { word := "take care", category := "phrases", synonyms := ["be careful"], description := "Pat heart", animation_type := none, animation_data := none })

def vocabEntry115 : String × SignData :=
  ("excuse me", { word := "excuse me", category := "phrases", synonyms := ["pardon"], description := "Wave hand", animation_type := none, animation_data := none })

def vocabEntry116 : String × SignData :=
  ("i\x27m sorry", { word := "i\x27m sorry", category := "phrases", synonyms := ["sorry", "my apologies"], description := "Fist circles on chest", animation_type := none, animation_data := none })

def vocabEntry117 : String × SignData :=
  ("no problem", { word := "no problem", category := "phrases", synonyms := ["that\x27s fine", "okay"], description := "Brush off shoulder", animation_type := none, animation_data := none })

def vocabEntry118 : String × SignData :=
  ("you\x27re welcome", { word := "you\x27re welcome", category := "phrases", synonyms := ["welcome"], description := "Open hands outward", animation_type := none, animation_data := none })

def vocabChunk0 : List (String × SignData) :=
  [vocabEntry0, vocabEntry1, vocabEntry2, vocabEntry3, vocabEntry4, vocabEntry5, vocabEntry6, vocabEntry7, vocabEntry8, vocabEntry9, vocabEntry10, vocabEntry11, vocabEntry12, vocabEntry13, vocabEntry14, vocabEntry15, vocabEntry16, vocabEntry17, vocabEntry18, vocabEntry19, vocabEntry20, vocabEntry21, vocabEntry22, vocabEntry23, vocabEntry24, vocabEntry25, vocabEntry26, vocabEntry27, vocabEntry28, vocabEntry29]

def vocabChunk1 : List (String × SignData) :=
  [vocabEntry30, vocabEntry31, vocabEntry32, vocabEntry33, vocabEntry34, vocabEntry35, vocabEntry36, vocabEntry37, vocabEntry38, vocabEntry39, vocabEntry40, vocabEntry41, vocabEntry42, vocabEntry43, vocabEntry44, vocabEntry45, vocabEntry46, vocabEntry47, vocabEntry48, vocabEntry49, vocabEntry50, vocabEntry51, vocabEntry52, vocabEntry53, vocabEntry54, vocabEntry55, vocabEntry56, vocabEntry57, vocabEntry58, vocabEntry59]

def vocabChunk2 : List (String × SignData) :=
  [vocabEntry60, vocabEntry61, vocabEntry62, vocabEntry63, vocabEntry64, vocabEntry65, vocabEntry66, vocabEntry67, vocabEntry68, vocabEntry69, vocabEntry70, vocabEntry71, vocabEntry72, vocabEntry73, vocabEntry74, vocabEntry75, vocabEntry76, vocabEntry77, vocabEntry78, vocabEntry79, vocabEntry80, vocabEntry81, vocabEntry82, vocabEntry83, vocabEntry84, vocabEntry85, vocabEntry86, vocabEntry87, vocabEntry88, vocabEntry89]

def vocabChunk3 : List (String × SignData) :=
  [vocabEntry90, vocabEntry91, vocabEntry92, vocabEntry93, vocabEntry94, vocabEntry95, vocabEntry96, vocabEntry97, vocabEntry98, vocabEntry99, vocabEntry100, vocabEntry101, vocabEntry102, vocabEntry103, vocabEntry104, vocabEntry105, vocabEntry106, vocabEntry107, vocabEntry108, vocabEntry109, vocabEntry110, vocabEntry111, vocabEntry112, vocabEntry113, vocabEntry114, vocabEntry115, vocabEntry116, vocabEntry117, vocabEntry118]

/-- The `SIGN_VOCABULARY` dict of app.py as an insertion-ordered association
list (Python dicts preserve insertion order; all 119 keys are distinct). -/
def SIGN_VOCABULARY : List (String × SignData) :=
  vocabChunk0 ++ vocabChunk1 ++ vocabChunk2 ++ vocabChunk3

/-! ### Character-level string operations (`str.lower`, `str.split`, `in`) -/

/-- Python `str.lower()` (ASCII range; the vocabulary and example inputs are ASCII). -/
def pyLower (s : String) : String := ⟨s.data.map Char.toLower⟩

/-- `text_lower.replace(',', ' ').replace('.', ' ').replace('?', ' ').replace('!', ' ')`. -/
def replaceSeps (s : List Char) : List Char :=
  s.map fun c => if c = ',' ∨ c = '.' ∨ c = '?' ∨ c = '!' then ' ' else c

/-- Python `str.split()` with no argument: split on runs of whitespace,
dropping empty pieces.  `acc` holds the current word reversed. -/
def splitWsAux : List Char → List Char → List (List Char)
  | [], acc => if acc = [] then [] else [acc.reverse]
  | c :: rest, acc =>
    if c.isWhitespace then
      if acc = [] then splitWsAux rest [] else acc.reverse :: splitWsAux rest []
    else splitWsAux rest (c :: acc)

def splitWs (s : List Char) : List (List Char) := splitWsAux s []

/-- The token list `words` of `local_match_signs` (the input is already lowercased). -/
def tokenize (textLower : String) : List String :=
  (splitWs (replaceSeps textLower.data)).map fun l => ⟨l⟩

/-- `needle` is a prefix of `hay` (as character lists). -/
def isPrefixB : List Char → List Char → Bool
  | [], _ => true
  | _ :: _, [] => false
  | a :: as, b :: bs => a = b && isPrefixB as bs

/-- Python's substring test `needle in hay` (contiguous substring). -/
def isInfixB (needle : List Char) : List Char → Bool
  | [] => isPrefixB needle []
  | hay@(_ :: t) => isPrefixB needle hay || isInfixB needle t

/-- `' ' in sign_word`. -/
def hasSpace (s : String) : Bool := s.data.contains ' '

/-! ### `local_match_signs` (app.py lines 804-870) -/

/-- First loop of `local_match_signs`: multi-word phrase pass over the
vocabulary in insertion order.  Returns the emitted matches together with the
updated `matched_words` set (modelled as a list used only for membership). -/
def phrasePass : List (String × SignData) → String → List String →
    List MatchResult × List String
  | [], _, matched => ([], matched)
  | (k, d) :: rest, textLower, matched =>
    if hasSpace k && isInfixB k.data textLower.data && !matched.contains k then
      let p := phrasePass rest textLower (k :: matched)
      (mkVocabMatch d conf1 k :: p.1, p.2)
    else phrasePass rest textLower matched

/-- `word in SIGN_VOCABULARY` / `SIGN_VOCABULARY[word]`: dictionary lookup. -/
def vocabLookup : List (String × SignData) → String → Option SignData
  | [], _ => none
  | (k, d) :: rest, w => if w = k then some d else vocabLookup rest w

/-- The inner synonym loop: first vocabulary entry (in insertion order) whose
`synonyms` list contains `w`. -/
def synLookup : List (String × SignData) → String → Option SignData
  | [], _ => none
  | (_, d) :: rest, w => if d.synonyms.contains w then some d else synLookup rest w

/-- Second loop of `local_match_signs`: exact word matches (confidence 1.0)
and synonym matches (confidence 0.85), in token order, updating `matched_words`. -/
def wordPass : List String → List String → List MatchResult × List String
  | [], matched => ([], matched)
  | w :: ws, matched =>
    if matched.contains w then wordPass ws matched
    else
      match vocabLookup SIGN_VOCABULARY w with
      | some d =>
        let p := wordPass ws (w :: matched)
        (mkVocabMatch d conf1 w :: p.1, p.2)
      | none =>
        match synLookup SIGN_VOCABULARY w with
        | some d =>
          let p := wordPass ws (w :: matched)
          (mkVocabMatch d conf085 w :: p.1, p.2)
        | none => wordPass ws matched

/-- Third loop of `local_match_signs`: fingerspell fallback for tokens still
unconsumed, keeping only alphabetic characters, confidence 0.5. -/
def fingerPass : List String → List String → List MatchResult
  | [], _ => []
  | w :: ws, matched =>
    if w = "" || matched.contains w then fingerPass ws matched
    else
      let letters := w.data.filter Char.isAlpha
      if letters = [] then fingerPass ws matched
      else mkFingerspell w letters conf05 :: fingerPass ws (w :: matched)

/-- `local_match_signs(text)` of app.py: phrase pass, then word/synonym pass,
then fingerspell fallback, sharing one `matched_words` set. -/
def local_match_signs (text : String) : List MatchResult :=
  let textLower := pyLower text
  let words := tokenize textLower
  let pp := phrasePass SIGN_VOCABULARY textLower []
  let wp := wordPass words pp.2
  pp.1 ++ wp.1 ++ fingerPass words wp.2

/-! ### `gemini_match_signs` (app.py lines 872-928)

The external generative-text service and the JSON parser are collaborators
outside this program; they enter the embedding as oracles carried by a
`RemoteEnv`: `callResult` is what `model.generate_content(prompt).text` would
yield (`Except.error` models any exception raised while building the model or
making the call), and `parse` models `json.loads` together with the dict-shape
access of the enrichment loop (an `Except.error` models both a
`json.JSONDecodeError` and any malformed-shape exception). -/

/-- One element of the JSON array returned by the remote service:
`{word, confidence, matched_from}`, every key optional (the code uses
`match.get(...)` with defaults). -/
structure GMatch where
  word : Option String
  confidence : Option Rat
  matched_from : Option String
deriving DecidableEq, Repr

/-- The default confidence `0.8` used when the remote reply omits the field. -/
def conf08 : Rat := ⟨4, 5, by decide, by decide⟩

/-- Python `str.strip()`: remove leading and trailing whitespace. -/
def pyStrip (s : String) : String :=
  ⟨(s.data.dropWhile Char.isWhitespace).reverse.dropWhile Char.isWhitespace |>.reverse⟩

/-- Python `str.split('\n')`: split at every newline, keeping empty pieces. -/
def splitNl : List Char → List (List Char)
  | [] => [[]]
  | c :: rest =>
    if c = '\n' then [] :: splitNl rest
    else
      match splitNl rest with
      | [] => [[c]]
      | l :: ls => (c :: l) :: ls

/-- `'\n'.join(lines)`. -/
def joinNl : List (List Char) → List Char
  | [] => []
  | [l] => l
  | l :: ls => l ++ '\n' :: joinNl ls

/-- The markdown-fence cleanup of `gemini_match_signs`: strip the response,
and when it starts with three backticks drop the first and last line. -/
def cleanResponse (s : String) : String :=
  let t := pyStrip s
  if isPrefixB "```".data t.data then
    ⟨joinNl ((splitNl t.data).drop 1).dropLast⟩
  else t

/-- The enrichment loop of `gemini_match_signs`: keep only replies whose
lowercased `word` is a vocabulary key, copying that entry's fields and
defaulting `confidence` to 0.8 and `matched_from` to the word. -/
def enrichMatches : List GMatch → List MatchResult
  | [] => []
  | g :: rest =>
    let w := pyLower (g.word.getD "")
    match vocabLookup SIGN_VOCABULARY w with
    | some d =>
      mkVocabMatch d (g.confidence.getD conf08) (g.matched_from.getD w) :: enrichMatches rest
    | none => enrichMatches rest

/-- The collaborators of the remote matcher, fixed for one request. -/
structure RemoteEnv where
  apiKey : String
  callResult : Except String String
  parse : String → Except String (List GMatch)

/-- Outcome of `gemini_match_signs`: the pair `(matches-or-None, error-or-None)`
returned by the Python function, plus `calls`, the number of times the external
service was invoked (0 or 1), recording whether a call was attempted. -/
structure GeminiOutcome where
  result : Option (List MatchResult)
  error : Option String
  calls : Nat
deriving DecidableEq, Repr

/-- `gemini_match_signs(text)`: no credential short-circuits with no call;
a raised exception or a parse failure yields `(None, reason)`; success enriches
the parsed array.  (The prompt text does not influence the modelled control
flow, so it is not a parameter of the oracle.) -/
def gemini_match_signs (env : RemoteEnv) : GeminiOutcome :=
  if env.apiKey = "" then
    { result := none, error := some "No API key configured", calls := 0 }
  else
    match env.callResult with
    | .error e => { result := none, error := some ("Gemini API error: " ++ e), calls := 1 }
    | .ok raw =>
      match env.parse (cleanResponse raw) with
      | .error e =>
        { result := none, error := some ("Failed to parse Gemini response: " ++ e), calls := 1 }
      | .ok ms => { result := some (enrichMatches ms), error := none, calls := 1 }

/-! ### The `/api/match` handler `match_signs` (app.py lines 936-996)

Media enrichment (`add_video_urls_to_signs`) depends on the server's video
directory and only augments entries with extra URL fields; the embedding
returns the response as built before that step. -/

/-- A JSON value as far as the handler inspects it: `isinstance(text, str)`
only distinguishes strings from everything else. -/
inductive JVal where
  | jstr (s : String)
  | jother
deriving DecidableEq, Repr

/-- The parsed request body: `text` as found in the JSON object (`none` when
the key is missing), and the two flags after Python `bool(...)` coercion with
their defaults `use_ai=True`, `force_fingerspell=False`. -/
structure MatchRequest where
  text : Option JVal
  use_ai : Bool
  force_fingerspell : Bool
deriving DecidableEq, Repr

/-- The JSON response of `/api/match` (before media enrichment), plus `calls`,
the number of remote-service invocations made while handling the request. -/
structure MatchResponse where
  status : Nat
  signs : List MatchResult
  method : Option String
  error : Option String
  text : Option String
  calls : Nat
deriving DecidableEq, Repr

/-- `text.strip()[:2000]`. -/
def truncate2000 (s : String) : String := ⟨(pyStrip s).data.take 2000⟩

/-- `re.sub(r"[^A-Za-z0-9\s]", " ", text)`: replace every character that is
neither alphanumeric nor whitespace by a space. -/
def ffReplace (s : List Char) : List Char :=
  s.map fun c => if c.isAlphanum ∨ c.isWhitespace then c else ' '

/-- The forced-fingerspell branch: tokenize on non-alphanumeric boundaries and
fingerspell every token that has at least one letter, confidence 1.0. -/
def forceFingerspellSigns (t : String) : List MatchResult :=
  (splitWs (ffReplace t.data)).filterMap fun w =>
    let letters := w.filter Char.isAlpha
    if letters = [] then none
    else some (mkFingerspell ⟨w⟩ letters conf1)

/-- The `/api/match` handler.  `req = none` models a non-JSON body.  Strategy
selection: validation, forced fingerspelling, remote matcher (when requested
and configured, falling back to the local matcher when it returns `None`),
local matcher. -/
def match_signs (env : RemoteEnv) (req : Option MatchRequest) : MatchResponse :=
  match req with
  | none =>
    { status := 400, signs := [], method := none,
      error := some "Expected JSON payload", text := none, calls := 0 }
  | some r =>
    match r.text with
    | some (JVal.jstr s) =>
      if pyStrip s = "" then
        { status := 400, signs := [], method := some "none",
          error := some "No text provided", text := none, calls := 0 }
      else
        let t := truncate2000 s
        if r.force_fingerspell then
          { status := 200, signs := forceFingerspellSigns t,
            method := some "fingerspell", error := none, text := some t, calls := 0 }
        else if r.use_ai && env.apiKey ≠ "" then
          let g := gemini_match_signs env
          match g.result with
          | some signs =>
            { status := 200, signs := signs, method := some "gemini",
              error := none, text := some t, calls := g.calls }
          | none =>
            { status := 200, signs := local_match_signs t, method := some "local",
              error := none, text := some t, calls := g.calls }
        else
          { status := 200, signs := local_match_signs t, method := some "local",
            error := none, text := some t, calls := 0 }
    | _ =>
      { status := 400, signs := [], method := some "none",
        error := some "No text provided", text := none, calls := 0 }

/-- A concrete environment with no credential configured, used to instantiate
the handler theorems at specific requests. -/
def sampleEnv : RemoteEnv :=
  { apiKey := "", callResult := Except.error "unreachable",
    parse := fun _ => Except.error "unparsed" }

/-! ### Structural lemmas about the passes -/

theorem splitWsAux_mem {l acc : List Char} {w : List Char}
    (hacc : ∀ c ∈ acc, c.isWhitespace = false)
    (hw : w ∈ splitWsAux l acc) : w ≠ [] ∧ ∀ c ∈ w, c.isWhitespace = false := by
  induction l generalizing acc with
  | nil =>
    rw [splitWsAux] at hw
    by_cases ha : acc = []
    · simp [ha] at hw
    · simp [ha] at hw
      subst hw
      refine ⟨by simpa using ha, ?_⟩
      intro c hc
      exact hacc c (by simpa using hc)
  | cons c rest ih =>
    rw [splitWsAux] at hw
    by_cases hws : c.isWhitespace
    · simp [hws] at hw
      by_cases ha : acc = []
      · simp [ha] at hw
        exact ih (by simp) hw
      · simp [ha] at hw
        rcases hw with rfl | hw
        · refine ⟨by simpa using ha, ?_⟩
          intro x hx
          exact hacc x (by simpa using hx)
        · exact ih (by simp) hw
    · simp [hws] at hw
      refine ih ?_ hw
      intro x hx
      rcases List.mem_cons.mp hx with rfl | hx
      · simpa using hws
      · exact hacc x hx

theorem mem_splitWs {l : List Char} {w : List Char} (hw : w ∈ splitWs l) :
    w ≠ [] ∧ ∀ c ∈ w, c.isWhitespace = false :=
  splitWsAux_mem (by simp) hw

/-- Tokens produced by `tokenize` are nonempty and contain no space. -/
theorem mem_tokenize {t : String} {w : String} (hw : w ∈ tokenize t) :
    w ≠ "" ∧ hasSpace w = false := by
  rcases List.mem_map.mp hw with ⟨l, hl, rfl⟩
  obtain ⟨hne, hchars⟩ := mem_splitWs hl
  constructor
  · intro h
    exact hne (by simpa [String.ext_iff] using h)
  · rw [hasSpace]
    by_contra h
    simp only [String.data] at h
    have hmem : ' ' ∈ l := by
      have h' : l.contains ' ' = true := by
        simpa using h
      rcases List.contains_iff_exists_mem_beq.mp h' with ⟨x, hx, hbeq⟩
      have hx' : ' ' = x := by simpa using hbeq
      rw [hx']
      exact hx
    have := hchars ' ' hmem
    simp at this

theorem phrasePass_monotone {voc : List (String × SignData)} {t : String} :
    ∀ {m : List String} {x : String}, x ∈ m → x ∈ (phrasePass voc t m).2 := by
  induction voc with
  | nil => intro m x hx; simpa [phrasePass] using hx
  | cons e rest ih =>
    intro m x hx
    obtain ⟨k, d⟩ := e
    by_cases hc : (hasSpace k && isInfixB k.data t.data && !m.contains k) = true
    · simp only [phrasePass, hc, if_true]
      exact ih (List.mem_cons_of_mem _ hx)
    · simp only [phrasePass, hc, if_false]
      exact ih hx

theorem phrasePass_snd_spec {voc : List (String × SignData)} {t : String} :
    ∀ {m : List String} {x : String}, x ∈ (phrasePass voc t m).2 →
      x ∈ m ∨ (hasSpace x = true ∧ x ∈ voc.map Prod.fst) := by
  induction voc with
  | nil => intro m x hx; simpa [phrasePass] using hx
  | cons e rest ih =>
    intro m x hx
    obtain ⟨k, d⟩ := e
    by_cases hc : (hasSpace k && isInfixB k.data t.data && !m.contains k) = true
    · simp only [phrasePass, hc, if_true] at hx
      rcases ih hx with hm | ⟨hs, hmem⟩
      · rcases List.mem_cons.mp hm with rfl | hm
        · right
          refine ⟨?_, by simp⟩
          simp only [Bool.and_eq_true] at hc
          exact hc.1.1
        · exact Or.inl hm
      · exact Or.inr ⟨hs, List.mem_cons_of_mem _ hmem⟩
    · simp only [phrasePass, hc, if_false] at hx
      rcases ih hx with hm | ⟨hs, hmem⟩
      · exact Or.inl hm
      · exact Or.inr ⟨hs, List.mem_cons_of_mem _ hmem⟩

theorem phrasePass_fst_spec {voc : List (String × SignData)} {t : String} :
    ∀ {m : List String} {r : MatchResult}, r ∈ (phrasePass voc t m).1 →
      (∃ kd ∈ voc, r = mkVocabMatch kd.2 conf1 kd.1 ∧ hasSpace kd.1 = true) ∧
      r.matched_from ∈ (phrasePass voc t m).2 ∧ r.matched_from ∉ m := by
  induction voc with
  | nil => intro m r hr; simp [phrasePass] at hr
  | cons e rest ih =>
    intro m r hr
    obtain ⟨k, d⟩ := e
    by_cases hc : (hasSpace k && isInfixB k.data t.data && !m.contains k) = true
    · simp only [phrasePass, hc, if_true] at hr ⊢
      have hck : hasSpace k = true ∧ k ∉ m := by
        simp only [Bool.and_eq_true, Bool.not_eq_true'] at hc
        refine ⟨hc.1.1, ?_⟩
        intro hkm
        have hck2 : m.contains k = true := List.contains_iff_exists_mem_beq.mpr ⟨k, hkm, by simp⟩
        simp [hck2] at hc
        exact hc.2 hkm
      rcases List.mem_cons.mp hr with rfl | hr
      · refine ⟨⟨(k, d), by simp, rfl, hck.1⟩, ?_, ?_⟩
        · show k ∈ (phrasePass rest t (k :: m)).2
          exact phrasePass_monotone (List.mem_cons_self _ _)
        · exact hck.2
      · obtain ⟨⟨kd, hkd, hre, hsp⟩, hsnd, hnm⟩ := ih hr
        refine ⟨⟨kd, List.mem_cons_of_mem _ hkd, hre, hsp⟩, hsnd, ?_⟩
        intro hrm
        exact hnm (List.mem_cons_of_mem _ hrm)
    · simp only [phrasePass, hc, if_false] at hr ⊢
      obtain ⟨⟨kd, hkd, hre, hsp⟩, hsnd, hnm⟩ := ih hr
      exact ⟨⟨kd, List.mem_cons_of_mem _ hkd, hre, hsp⟩, hsnd, hnm⟩

theorem phrasePass_map_sublist {voc : List (String × SignData)} {t : String} :
    ∀ {m : List String},
      ((phrasePass voc t m).1.map (·.matched_from)).Sublist (voc.map Prod.fst) := by
  induction voc with
  | nil => intro m; simp [phrasePass]
  | cons e rest ih =>
    intro m
    obtain ⟨k, d⟩ := e
    by_cases hc : (hasSpace k && isInfixB k.data t.data && !m.contains k) = true
    · simp only [phrasePass, hc, if_true, List.map_cons, List.map]
      exact List.Sublist.cons₂ _ ih
    · simp only [phrasePass, hc, if_false, List.map_cons]
      exact List.Sublist.cons _ ih

theorem phrasePass_nodup_disjoint {voc : List (String × SignData)} {t : String} :
    ∀ {m : List String},
      ((phrasePass voc t m).1.map (·.matched_from)).Nodup ∧
      ∀ x ∈ (phrasePass voc t m).1.map (·.matched_from), x ∉ m := by
  induction voc with
  | nil => intro m; simp [phrasePass]
  | cons e rest ih =>
    intro m
    obtain ⟨k, d⟩ := e
    by_cases hc : (hasSpace k && isInfixB k.data t.data && !m.contains k) = true
    · simp only [phrasePass, hc, if_true, List.map_cons]
      have hknm : k ∉ m := by
        simp only [Bool.and_eq_true, Bool.not_eq_true'] at hc
        intro hkm
        have hck2 : m.contains k = true := List.contains_iff_exists_mem_beq.mpr ⟨k, hkm, by simp⟩
        simp [hck2] at hc
        exact hc.2 hkm
      obtain ⟨hnd, hdisj⟩ := ih (m := k :: m)
      refine ⟨List.nodup_cons.mpr ⟨?_, hnd⟩, ?_⟩
      · intro hkmem
        exact (hdisj k hkmem) (List.mem_cons_self _ _)
      · intro x hx
        rcases List.mem_cons.mp hx with rfl | hx
        · exact hknm
        · intro hxm
          exact (hdisj x hx) (List.mem_cons_of_mem _ hxm)
    · simp only [phrasePass, hc, if_false]
      exact ih

theorem wordPass_monotone :
    ∀ {ws : List String} {m : List String} {x : String},
      x ∈ m → x ∈ (wordPass ws m).2 := by
  intro ws
  induction ws with
  | nil => intro m x hx; simpa [wordPass] using hx
  | cons w rest ih =>
    intro m x hx
    by_cases hw : m.contains w = true
    · simp only [wordPass, hw, if_true]
      exact ih hx
    · cases hv : vocabLookup SIGN_VOCABULARY w with
      | some d =>
        simp only [wordPass, hw, if_false, hv]
        exact ih (List.mem_cons_of_mem _ hx)
      | none =>
        cases hs : synLookup SIGN_VOCABULARY w with
        | some d =>
          simp only [wordPass, hw, if_false, hv, hs]
          exact ih (List.mem_cons_of_mem _ hx)
        | none =>
          simp only [wordPass, hw, if_false, hv, hs]
          exact ih hx

theorem wordPass_fst_spec :
    ∀ {ws : List String} {m : List String} {r : MatchResult},
      r ∈ (wordPass ws m).1 →
      (r.confidence = conf1 ∨ r.confidence = conf085) ∧ r.letters = none ∧
      r.matched_from ∈ ws ∧ r.matched_from ∈ (wordPass ws m).2 ∧ r.matched_from ∉ m := by
  intro ws
  induction ws with
  | nil => intro m r hr; simp [wordPass] at hr
  | cons w rest ih =>
    intro m r hr
    by_cases hw : m.contains w = true
    · simp only [wordPass, hw, if_true] at hr ⊢
      obtain ⟨hconf, hlet, hmem, hsnd, hnm⟩ := ih hr
      exact ⟨hconf, hlet, List.mem_cons_of_mem _ hmem, hsnd, hnm⟩
    · have hwm : w ∉ m := by
        intro hmem
        exact hw (List.contains_iff_exists_mem_beq.mpr ⟨w, hmem, by simp⟩)
      cases hv : vocabLookup SIGN_VOCABULARY w with
      | some d =>
        simp only [wordPass, hw, if_false, hv] at hr ⊢
        rcases List.mem_cons.mp hr with rfl | hr
        · refine ⟨Or.inl rfl, rfl, by simp [mkVocabMatch], ?_, by simpa [mkVocabMatch] using hwm⟩
          show w ∈ (wordPass rest (w :: m)).2
          exact wordPass_monotone (List.mem_cons_self _ _)
        · obtain ⟨hconf, hlet, hmem, hsnd, hnm⟩ := ih hr
          refine ⟨hconf, hlet, List.mem_cons_of_mem _ hmem, hsnd, ?_⟩
          intro hrm
          exact hnm (List.mem_cons_of_mem _ hrm)
      | none =>
        cases hs : synLookup SIGN_VOCABULARY w with
        | some d =>
          simp only [wordPass, hw, if_false, hv, hs] at hr ⊢
          rcases List.mem_cons.mp hr with rfl | hr
          · refine ⟨Or.inr rfl, rfl, by simp [mkVocabMatch], ?_, by simpa [mkVocabMatch] using hwm⟩
            show w ∈ (wordPass rest (w :: m)).2
            exact wordPass_monotone (List.mem_cons_self _ _)
          · obtain ⟨hconf, hlet, hmem, hsnd, hnm⟩ := ih hr
            refine ⟨hconf, hlet, List.mem_cons_of_mem _ hmem, hsnd, ?_⟩
            intro hrm
            exact hnm (List.mem_cons_of_mem _ hrm)
        | none =>
          simp only [wordPass, hw, if_false, hv, hs] at hr ⊢
          obtain ⟨hconf, hlet, hmem, hsnd, hnm⟩ := ih hr
          exact ⟨hconf, hlet, List.mem_cons_of_mem _ hmem, hsnd, hnm⟩

theorem wordPass_map_sublist :
    ∀ {ws : List String} {m : List String},
      ((wordPass ws m).1.map (·.matched_from)).Sublist ws := by
  intro ws
  induction ws with
  | nil => intro m; simp [wordPass]
  | cons w rest ih =>
    intro m
    by_cases hw : m.contains w = true
    · simp only [wordPass, hw, if_true]
      exact List.Sublist.cons _ ih
    · cases hv : vocabLookup SIGN_VOCABULARY w with
      | some d =>
        simp only [wordPass, hw, if_false, hv, List.map_cons]
        exact List.Sublist.cons₂ _ ih
      | none =>
        cases hs : synLookup SIGN_VOCABULARY w with
        | some d =>
          simp only [wordPass, hw, if_false, hv, hs, List.map_cons]
          exact List.Sublist.cons₂ _ ih
        | none =>
          simp only [wordPass, hw, if_false, hv, hs]
          exact List.Sublist.cons _ ih

theorem wordPass_nodup_disjoint :
    ∀ {ws : List String} {m : List String},
      ((wordPass ws m).1.map (·.matched_from)).Nodup ∧
      ∀ x ∈ (wordPass ws m).1.map (·.matched_from), x ∉ m := by
  intro ws
  induction ws with
  | nil => intro m; simp [wordPass]
  | cons w rest ih =>
    intro m
    by_cases hw : m.contains w = true
    · simp only [wordPass, hw, if_true]
      exact ih
    · have hwm : w ∉ m := by
        intro hmem
        exact hw (List.contains_iff_exists_mem_beq.mpr ⟨w, hmem, by simp⟩)
      cases hv : vocabLookup SIGN_VOCABULARY w with
      | some d =>
        simp only [wordPass, hw, if_false, hv, List.map_cons]
        obtain ⟨hnd, hdisj⟩ := ih (m := w :: m)
        refine ⟨List.nodup_cons.mpr ⟨?_, hnd⟩, ?_⟩
        · intro hmem
          exact (hdisj _ hmem) (by simp [mkVocabMatch])
        · intro x hx
          rcases List.mem_cons.mp hx with rfl | hx
          · simpa [mkVocabMatch] using hwm
          · intro hxm
            exact (hdisj x hx) (List.mem_cons_of_mem _ hxm)
      | none =>
        cases hs : synLookup SIGN_VOCABULARY w with
        | some d =>
          simp only [wordPass, hw, if_false, hv, hs, List.map_cons]
          obtain ⟨hnd, hdisj⟩ := ih (m := w :: m)
          refine ⟨List.nodup_cons.mpr ⟨?_, hnd⟩, ?_⟩
          · intro hmem
            exact (hdisj _ hmem) (by simp [mkVocabMatch])
          · intro x hx
            rcases List.mem_cons.mp hx with rfl | hx
            · simpa [mkVocabMatch] using hwm
            · intro hxm
              exact (hdisj x hx) (List.mem_cons_of_mem _ hxm)
        | none =>
          simp only [wordPass, hw, if_false, hv, hs]
          exact ih

theorem fingerPass_fst_spec :
    ∀ {ws : List String} {m : List String} {r : MatchResult},
      r ∈ fingerPass ws m →
      ∃ w ∈ ws, r = mkFingerspell w (w.data.filter Char.isAlpha) conf05 ∧ w ∉ m := by
  intro ws
  induction ws with
  | nil => intro m r hr; simp [fingerPass] at hr
  | cons w rest ih =>
    intro m r hr
    by_cases hw : (w = "" || m.contains w) = true
    · simp only [fingerPass, hw, if_true] at hr
      obtain ⟨x, hx, hre, hxm⟩ := ih hr
      exact ⟨x, List.mem_cons_of_mem _ hx, hre, hxm⟩
    · have hwm : w ∉ m := by
        intro hmem
        simp only [Bool.or_eq_true] at hw
        exact hw (Or.inr (List.contains_iff_exists_mem_beq.mpr ⟨w, hmem, by simp⟩))
      by_cases hl : w.data.filter Char.isAlpha = []
      · simp only [fingerPass, hw, if_false, hl, if_true] at hr
        obtain ⟨x, hx, hre, hxm⟩ := ih hr
        exact ⟨x, List.mem_cons_of_mem _ hx, hre, hxm⟩
      · simp only [fingerPass, hw, if_false, hl, if_false] at hr
        rcases List.mem_cons.mp hr with rfl | hr
        · exact ⟨w, List.mem_cons_self _ _, rfl, hwm⟩
        · obtain ⟨x, hx, hre, hxm⟩ := ih hr
          refine ⟨x, List.mem_cons_of_mem _ hx, hre, ?_⟩
          intro hxmem
          exact hxm (List.mem_cons_of_mem _ hxmem)

theorem fingerPass_map_sublist :
    ∀ {ws : List String} {m : List String},
      ((fingerPass ws m).map (·.matched_from)).Sublist ws := by
  intro ws
  induction ws with
  | nil => intro m; simp [fingerPass]
  | cons w rest ih =>
    intro m
    by_cases hw : (w = "" || m.contains w) = true
    · simp only [fingerPass, hw, if_true]
      exact List.Sublist.cons _ ih
    · by_cases hl : w.data.filter Char.isAlpha = []
      · simp only [fingerPass, hw, if_false, hl, if_true]
        exact List.Sublist.cons _ ih
      · simp only [fingerPass, hw, if_false, hl, if_false, List.map_cons]
        exact List.Sublist.cons₂ _ ih

theorem fingerPass_nodup_disjoint :
    ∀ {ws : List String} {m : List String},
      ((fingerPass ws m).map (·.matched_from)).Nodup ∧
      ∀ x ∈ (fingerPass ws m).map (·.matched_from), x ∉ m := by
  intro ws
  induction ws with
  | nil => intro m; simp [fingerPass]
  | cons w rest ih =>
    intro m
    by_cases hw : (w = "" || m.contains w) = true
    · simp only [fingerPass, hw, if_true]
      exact ih
    · have hwm : w ∉ m := by
        intro hmem
        simp only [Bool.or_eq_true] at hw
        exact hw (Or.inr (List.contains_iff_exists_mem_beq.mpr ⟨w, hmem, by simp⟩))
      by_cases hl : w.data.filter Char.isAlpha = []
      · simp only [fingerPass, hw, if_false, hl, if_true]
        exact ih
      · simp only [fingerPass, hw, if_false, hl, if_false, List.map_cons]
        obtain ⟨hnd, hdisj⟩ := ih (m := w :: m)
        refine ⟨List.nodup_cons.mpr ⟨?_, hnd⟩, ?_⟩
        · intro hmem
          exact (hdisj _ hmem) (by simp [mkFingerspell])
        · intro x hx
          rcases List.mem_cons.mp hx with rfl | hx
          · simpa [mkFingerspell] using hwm
          · intro hxm
            exact (hdisj x hx) (List.mem_cons_of_mem _ hxm)

theorem fingerPass_filter_of_mem :
    ∀ {ws m : List String} {w : String}, w ∈ m →
      (fingerPass ws m).filter (fun r => r.matched_from == w) = [] := by
  intro ws
  induction ws with
  | nil => intro m w _; simp [fingerPass]
  | cons x rest ih =>
    intro m w hwm
    by_cases hx : (x = "" || m.contains x) = true
    · simp only [fingerPass, hx, if_true]
      exact ih hwm
    · have hxm : x ∉ m := by
        intro hmem
        simp only [Bool.or_eq_true] at hx
        exact hx (Or.inr (List.contains_iff_exists_mem_beq.mpr ⟨x, hmem, by simp⟩))
      by_cases hl : x.data.filter Char.isAlpha = []
      · simp only [fingerPass, hx, if_false, hl, if_true]
        exact ih hwm
      · have hxw : x ≠ w := by
          intro h
          exact hxm (h ▸ hwm)
        simp only [fingerPass, hx, if_false, hl, if_false, Bool.false_eq_true]
        have hne : ((mkFingerspell x (x.data.filter Char.isAlpha) conf05).matched_from == w) = false := by
          simp [mkFingerspell, hxw]
        rw [List.filter_cons, if_neg (by simp [hne])]
        exact ih (List.mem_cons_of_mem _ hwm)

theorem fingerPass_filter_emit :
    ∀ {ws m : List String} {w : String}, w ∉ m → w ∈ ws →
      w.data.filter Char.isAlpha ≠ [] →
      (fingerPass ws m).filter (fun r => r.matched_from == w) =
        [mkFingerspell w (w.data.filter Char.isAlpha) conf05] := by
  intro ws
  induction ws with
  | nil => intro m w _ hws _; simp at hws
  | cons x rest ih =>
    intro m w hwm hws hwl
    have hwne : w ≠ "" := by
      intro h
      subst h
      simp at hwl
    by_cases hxw : x = w
    · subst hxw
      have hx : (x = "" || m.contains x) = false := by
        simp only [Bool.or_eq_false_iff]
        refine ⟨by simpa using hwne, ?_⟩
        by_contra h
        simp only [Bool.not_eq_false] at h
        rcases List.contains_iff_exists_mem_beq.mp h with ⟨y, hy, hbeq⟩
        have : x = y := by simpa using hbeq
        exact hwm (this ▸ hy)
      simp only [fingerPass, hx, if_false, hwl, if_false, Bool.false_eq_true]
      have hbeq : ((mkFingerspell x (x.data.filter Char.isAlpha) conf05).matched_from == x) = true := by
        simp [mkFingerspell]
      rw [List.filter_cons, if_pos hbeq, fingerPass_filter_of_mem (List.mem_cons_self _ _)]
    · have hws' : w ∈ rest := by
        rcases List.mem_cons.mp hws with h | h
        · exact absurd h.symm hxw
        · exact h
      by_cases hx : (x = "" || m.contains x) = true
      · simp only [fingerPass, hx, if_true]
        exact ih hwm hws' hwl
      · by_cases hl : x.data.filter Char.isAlpha = []
        · simp only [fingerPass, hx, if_false, hl, if_true]
          exact ih hwm hws' hwl
        · simp only [fingerPass, hx, if_false, hl, if_false, Bool.false_eq_true]
          have hne : ((mkFingerspell x (x.data.filter Char.isAlpha) conf05).matched_from == w) = false := by
            simp [mkFingerspell, hxw]
          rw [List.filter_cons, if_neg (by simp [hne])]
          refine ih ?_ hws' hwl
          intro h
          rcases List.mem_cons.mp h with h | h
          · exact hxw h.symm
          · exact hwm h

theorem fingerPass_filter_no_alpha :
    ∀ {ws m : List String} {w : String}, w.data.filter Char.isAlpha = [] →
      (fingerPass ws m).filter (fun r => r.matched_from == w) = [] := by
  intro ws
  induction ws with
  | nil => intro m w _; simp [fingerPass]
  | cons x rest ih =>
    intro m w hwl
    by_cases hx : (x = "" || m.contains x) = true
    · simp only [fingerPass, hx, if_true]
      exact ih hwl
    · by_cases hl : x.data.filter Char.isAlpha = []
      · simp only [fingerPass, hx, if_false, hl, if_true]
        exact ih hwl
      · have hxw : x ≠ w := by
          intro h
          subst h
          exact hl hwl
        simp only [fingerPass, hx, if_false, hl, if_false, Bool.false_eq_true]
        have hne : ((mkFingerspell x (x.data.filter Char.isAlpha) conf05).matched_from == w) = false := by
          simp [mkFingerspell, hxw]
        rw [List.filter_cons, if_neg (by simp [hne])]
        exact ih hwl

theorem conf1_eq : conf1 = 1 := by
  rw [conf1, Rat.mk'_eq_divInt]
  norm_num

theorem conf085_eq : conf085 = 85/100 := by
  rw [conf085, Rat.mk'_eq_divInt, Rat.divInt_eq_div]
  norm_num

theorem conf05_eq : conf05 = 1/2 := by
  rw [conf05, Rat.mk'_eq_divInt, Rat.divInt_eq_div]
  norm_num

/-- `local_match_signs` unfolded into its three passes. -/
theorem local_match_signs_eq (text : String) :
    local_match_signs text =
      (phrasePass SIGN_VOCABULARY (pyLower text) []).1 ++
      (wordPass (tokenize (pyLower text)) (phrasePass SIGN_VOCABULARY (pyLower text) []).2).1 ++
      fingerPass (tokenize (pyLower text))
        (wordPass (tokenize (pyLower text)) (phrasePass SIGN_VOCABULARY (pyLower text) []).2).2 :=
  rfl

theorem phrasePass_filter_no_token {voc : List (String × SignData)} {t w : String}
    {m : List String} (hw : hasSpace w = false) :
    (phrasePass voc t m).1.filter (fun r => r.matched_from == w) = [] := by
  rw [List.filter_eq_nil_iff]
  intro r hr
  obtain ⟨⟨kd, _, rfl, hsp⟩, _, _⟩ := phrasePass_fst_spec hr
  simp only [mkVocabMatch, beq_iff_eq]
  intro h
  rw [h] at hsp
  rw [hsp] at hw
  exact Bool.true_eq_false.mp hw

theorem wordPass_filter_not_matched {ws m : List String} {w : String}
    (hw : w ∉ (wordPass ws m).2) :
    (wordPass ws m).1.filter (fun r => r.matched_from == w) = [] := by
  rw [List.filter_eq_nil_iff]
  intro r hr
  obtain ⟨_, _, _, hsnd, _⟩ := wordPass_fst_spec hr
  simp only [beq_iff_eq]
  intro h
  rw [h] at hsnd
  exact hw hsnd

theorem forceFingerspellSigns_map (t : String) :
    (forceFingerspellSigns t).map (·.matched_from) =
      ((splitWs (ffReplace t.data)).filter (fun w => w.any Char.isAlpha)).map
        (fun w => (⟨w⟩ : String)) := by
  rw [forceFingerspellSigns]
  induction splitWs (ffReplace t.data) with
  | nil => simp
  | cons w rest ih =>
    by_cases hl : w.filter Char.isAlpha = []
    · have hany : w.any Char.isAlpha = false := by
        rw [List.any_eq_false]
        intro x hx
        rw [List.filter_eq_nil_iff] at hl
        exact hl x hx
      simp only [List.filterMap_cons, hl, if_pos rfl, List.filter_cons, hany,
        Bool.false_eq_true, if_false]
      exact ih
    · have hany : w.any Char.isAlpha = true := by
        rw [List.any_eq_true]
        rcases List.exists_mem_of_ne_nil _ hl with ⟨x, hx⟩
        exact ⟨x, List.mem_of_mem_filter hx, List.of_mem_filter hx⟩
      rw [List.filterMap_cons]
      simp only [hl, if_false, List.filter_cons, hany, if_true, List.map_cons]
      rw [ih]
      rfl

theorem forceFingerspellSigns_mem {t : String} {sg : MatchResult}
    (h : sg ∈ forceFingerspellSigns t) :
    sg.category = "fingerspelled" ∧ sg.confidence = conf1 ∧
    sg.letters = some (sg.matched_from.data.filter Char.isAlpha) := by
  rw [forceFingerspellSigns] at h
  rcases List.mem_filterMap.mp h with ⟨w, _, hf⟩
  by_cases hl : w.filter Char.isAlpha = []
  · simp [hl] at hf
  · simp only [hl, if_false] at hf
    rcases Option.some.injEq _ _ ▸ hf with rfl
    exact ⟨rfl, rfl, rfl⟩

/-! ### Claims -/

/-- C1 counterexample.  The claim asserts that per-token word/synonym hits and
fingerspell-fallback entries are interleaved in token order, so that for an
input whose first token is unmatched and whose second token is a vocabulary
key, the fingerspelled entry for the first token precedes the word match for
the second.  On `"xyzzy yes"` the code emits the word match for the second
token `"yes"` BEFORE the fingerspelled entry for the first token `"xyzzy"`,
because the fingerspell fallback is a separate third loop that runs after the
whole word/synonym loop. -/
theorem claim_C1_counterexample :
    local_match_signs "xyzzy yes" =
      [mkVocabMatch vocabEntry13.2 conf1 "yes",
       mkFingerspell "xyzzy" ['x', 'y', 'z', 'z', 'y'] conf05] := by
  decide

/-- C1 (amended): for every input text `local_match_signs` returns the phrase
matches first (in vocabulary insertion order, each with confidence 1.0 and a
multi-word `matched_from`), then all word/synonym matches in token order
(confidence 1.0 or 0.85, no `letters` field), then all fingerspell-fallback
entries in token order (category `"fingerspelled"`, confidence 0.5) — the two
per-token groups follow token order within themselves but are not interleaved
with each other. -/
theorem claim_C1 : ∀ text : String, ∃ p w f : List MatchResult,
    local_match_signs text = p ++ w ++ f ∧
    (p.map (·.matched_from)).Sublist (SIGN_VOCABULARY.map Prod.fst) ∧
    (∀ r ∈ p, r.confidence = conf1 ∧ hasSpace r.matched_from = true) ∧
    (w.map (·.matched_from)).Sublist (tokenize (pyLower text)) ∧
    (∀ r ∈ w, (r.confidence = conf1 ∨ r.confidence = conf085) ∧ r.letters = none) ∧
    (f.map (·.matched_from)).Sublist (tokenize (pyLower text)) ∧
    (∀ r ∈ f, r.category = "fingerspelled" ∧ r.confidence = conf05) := by
  intro text
  refine ⟨_, _, _, local_match_signs_eq text, phrasePass_map_sublist, ?_,
    wordPass_map_sublist, ?_, fingerPass_map_sublist, ?_⟩
  · intro r hr
    obtain ⟨⟨kd, _, rfl, hsp⟩, _, _⟩ := phrasePass_fst_spec hr
    exact ⟨rfl, hsp⟩
  · intro r hr
    obtain ⟨hc, hl, _, _, _⟩ := wordPass_fst_spec hr
    exact ⟨hc, hl⟩
  · intro r hr
    obtain ⟨x, _, rfl, _⟩ := fingerPass_fst_spec hr
    exact ⟨rfl, rfl⟩

/-- C2 counterexample.  `"see you"` is a synonym of `"goodbye"` and is not a
vocabulary key, yet `local_match_signs "see you"` contains no entry with
confidence 0.85 at all: the phrase pass scans only multi-word KEYS and the
word/synonym pass sees only single tokens, so multi-word synonyms can never
match.  Also, `"dark"` is a synonym of both `"night"` and `"black"`, but only
the first owner in insertion order (`"night"`) is ever emitted. -/
theorem claim_C2_counterexample :
    ("see you" ∈ vocabEntry1.2.synonyms ∧
      vocabLookup SIGN_VOCABULARY "see you" = none ∧
      local_match_signs "see you" =
        [mkFingerspell "see" ['s', 'e', 'e'] conf05,
         mkFingerspell "you" ['y', 'o', 'u'] conf05]) ∧
    ("dark" ∈ vocabEntry109.2.synonyms ∧
      vocabLookup SIGN_VOCABULARY "dark" = none ∧
      local_match_signs "dark" = [mkVocabMatch vocabEntry75.2 conf085 "dark"]) := by
  decide

/-- C2 (amended): for every vocabulary entry `e` and synonym `s` of `e` such
that `s` is a single token (no space, lowercase, tokenizing to itself), `s` is
not itself a vocabulary key, and `e` is the FIRST entry in vocabulary insertion
order whose synonym list contains `s`, `local_match_signs s` contains the
MatchResult with `e`'s fields and confidence 0.85. -/
theorem claim_C2 : ∀ kd ∈ SIGN_VOCABULARY, ∀ s ∈ kd.2.synonyms,
    synLookup SIGN_VOCABULARY s = some kd.2 →
    vocabLookup SIGN_VOCABULARY s = none →
    hasSpace s = false → pyLower s = s → tokenize s = [s] →
    mkVocabMatch kd.2 conf085 s ∈ local_match_signs s := by
  intro kd _ s _ hsyn hvoc hsp hlow htok
  rw [local_match_signs_eq, hlow, htok]
  have hnm : s ∉ (phrasePass SIGN_VOCABULARY s []).2 := by
    intro hmem
    rcases phrasePass_snd_spec hmem with h | ⟨h, _⟩
    · simp at h
    · rw [h] at hsp
      exact Bool.true_eq_false.mp hsp
  have hcont : ((phrasePass SIGN_VOCABULARY s []).2).contains s = false := by
    by_contra hc
    simp only [Bool.not_eq_false] at hc
    rcases List.contains_iff_exists_mem_beq.mp hc with ⟨y, hy, hbeq⟩
    have hsy : s = y := by simpa using hbeq
    exact hnm (hsy ▸ hy)
  simp only [wordPass, hcont, Bool.false_eq_true, if_false, hvoc, hsyn]
  simp

/-- C2 witness: `"morning"` is a single-token synonym of `"good morning"`
(its first owner) and not a key, and matching it yields the `"good morning"`
entry with confidence 0.85. -/
theorem claim_C2_witness :
    mkVocabMatch vocabEntry5.2 conf085 "morning" ∈ local_match_signs "morning" :=
  claim_C2 vocabEntry5 (by decide) "morning" (by decide) (by decide) (by decide)
    (by decide) (by decide) (by decide)

set_option maxRecDepth 100000 in
/-- C3: every vocabulary key `k` yields a MatchResult with `word = k` and
confidence 1.0 (multi-word keys via the phrase pass, single-word keys via the
exact-token pass), and the empty input yields the empty list. -/
theorem claim_C3 :
    (∀ kd ∈ SIGN_VOCABULARY, ∃ r ∈ local_match_signs kd.1,
      r.word = kd.1 ∧ r.confidence = conf1) ∧
    local_match_signs "" = [] := by
  constructor
  · decide
  · decide

/-- C3 witness: instantiated at the key `"hello"`. -/
theorem claim_C3_witness :
    ∃ r ∈ local_match_signs vocabEntry0.1, r.word = vocabEntry0.1 ∧ r.confidence = conf1 :=
  claim_C3.1 vocabEntry0 (by decide)

/-- C9: a phrase match does not consume its constituent tokens, so the same
vocabulary entry can be emitted more than once for a single input: for
`"good morning"` the output is the `"good morning"` entry at confidence 1.0
(phrase pass), the `"good"` entry at confidence 1.0 (word pass), and the
`"good morning"` entry again at confidence 0.85 (synonym pass on the token
`"morning"`). -/
theorem claim_C9 :
    local_match_signs "good morning" =
      [mkVocabMatch vocabEntry5.2 conf1 "good morning",
       mkVocabMatch vocabEntry76.2 conf1 "good",
       mkVocabMatch vocabEntry5.2 conf085 "morning"] := by
  decide

/-- C4: in `local_match_signs`, every token not consumed by the phrase, word,
or synonym passes (i.e. not in the `matched_words` set when the fallback loop
starts) that contains at least one alphabetic character yields exactly one
MatchResult — category `"fingerspelled"`, letters the alphabetic characters of
the token in order, confidence 0.5 — while tokens with no alphabetic character
yield no entry; and `local_match_signs "xyzzy123"` is a single fingerspelled
entry with letters `x y z z y`. -/
theorem claim_C4 :
    (∀ (text w : String),
      w ∈ tokenize (pyLower text) →
      w ∉ (wordPass (tokenize (pyLower text))
            (phrasePass SIGN_VOCABULARY (pyLower text) []).2).2 →
      (w.data.filter Char.isAlpha ≠ [] →
        (local_match_signs text).filter (fun r => r.matched_from == w) =
          [mkFingerspell w (w.data.filter Char.isAlpha) conf05]) ∧
      (w.data.filter Char.isAlpha = [] →
        (local_match_signs text).filter (fun r => r.matched_from == w) = [])) ∧
    local_match_signs "xyzzy123" =
      [mkFingerspell "xyzzy123" ['x', 'y', 'z', 'z', 'y'] conf05] := by
  constructor
  · intro text w htok hnm2
    have hsp : hasSpace w = false := (mem_tokenize htok).2
    have hfilp :
        (phrasePass SIGN_VOCABULARY (pyLower text) []).1.filter
          (fun r => r.matched_from == w) = [] :=
      phrasePass_filter_no_token hsp
    have hfilw :
        (wordPass (tokenize (pyLower text))
            (phrasePass SIGN_VOCABULARY (pyLower text) []).2).1.filter
          (fun r => r.matched_from == w) = [] :=
      wordPass_filter_not_matched hnm2
    constructor
    · intro hla
      rw [local_match_signs_eq, List.filter_append, List.filter_append, hfilp, hfilw,
        fingerPass_filter_emit hnm2 htok hla]
      simp
    · intro hla
      rw [local_match_signs_eq, List.filter_append, List.filter_append, hfilp, hfilw,
        fingerPass_filter_no_alpha hla]
      simp
  · decide

/-- C4 witness: instantiated at input `"xyzzy123"` and its only token. -/
theorem claim_C4_witness :
    (local_match_signs "xyzzy123").filter (fun r => r.matched_from == "xyzzy123") =
      [mkFingerspell "xyzzy123" ['x', 'y', 'z', 'z', 'y'] conf05] :=
  (claim_C4.1 "xyzzy123" "xyzzy123" (by decide) (by decide)).1 (by decide)

/-- C5: repeated identical tokens are matched at most once — for every input,
no `matched_from` value occurs twice in the output (the `matched_words` set is
keyed by the token string, not the token position), and in particular
`"yes yes"` yields exactly one match for `"yes"`. -/
theorem claim_C5 :
    (∀ (text x : String), ((local_match_signs text).map (·.matched_from)).count x ≤ 1) ∧
    local_match_signs "yes yes" = [mkVocabMatch vocabEntry13.2 conf1 "yes"] := by
  constructor
  · intro text x
    have hnd : ((local_match_signs text).map (·.matched_from)).Nodup := by
      rw [local_match_signs_eq, List.map_append, List.map_append]
      refine List.nodup_append.mpr ⟨List.nodup_append.mpr
        ⟨phrasePass_nodup_disjoint.1, wordPass_nodup_disjoint.1, ?_⟩,
        fingerPass_nodup_disjoint.1, ?_⟩
      · intro a ha hb
        rcases List.mem_map.mp ha with ⟨r, hr, rfl⟩
        obtain ⟨_, hsnd, _⟩ := phrasePass_fst_spec hr
        exact (wordPass_nodup_disjoint.2 _ hb) hsnd
      · intro a ha hc
        rcases List.mem_append.mp ha with ha | ha
        · rcases List.mem_map.mp ha with ⟨r, hr, rfl⟩
          obtain ⟨_, hsnd, _⟩ := phrasePass_fst_spec hr
          exact (fingerPass_nodup_disjoint.2 _ hc) (wordPass_monotone hsnd)
        · rcases List.mem_map.mp ha with ⟨r, hr, rfl⟩
          obtain ⟨_, _, _, hsnd, _⟩ := wordPass_fst_spec hr
          exact (fingerPass_nodup_disjoint.2 _ hc) hsnd
    exact List.nodup_iff_count_le_one.mp hnd x
  · decide

/-- C10: every MatchResult emitted by `local_match_signs` has confidence 1.0,
0.85 or 0.5, and in particular the confidence always lies in [0, 1]. -/
theorem claim_C10 : ∀ (text : String), ∀ r ∈ local_match_signs text,
    (r.confidence = conf1 ∨ r.confidence = conf085 ∨ r.confidence = conf05) ∧
    0 ≤ r.confidence ∧ r.confidence ≤ 1 := by
  intro text r hr
  have hset : r.confidence = conf1 ∨ r.confidence = conf085 ∨ r.confidence = conf05 := by
    rw [local_match_signs_eq] at hr
    rcases List.mem_append.mp hr with h | h
    · rcases List.mem_append.mp h with h | h
      · obtain ⟨⟨kd, _, rfl, _⟩, _, _⟩ := phrasePass_fst_spec h
        exact Or.inl rfl
      · obtain ⟨hc, _, _, _, _⟩ := wordPass_fst_spec h
        rcases hc with hc | hc
        · exact Or.inl hc
        · exact Or.inr (Or.inl hc)
    · obtain ⟨x, _, rfl, _⟩ := fingerPass_fst_spec h
      exact Or.inr (Or.inr rfl)
  have hb : 0 ≤ r.confidence ∧ r.confidence ≤ 1 := by
    rcases hset with h | h | h <;> rw [h]
    · rw [conf1_eq]
      norm_num
    · rw [conf085_eq]
      norm_num
    · rw [conf05_eq]
      norm_num
  exact ⟨hset, hb⟩

/-- C10 witness: instantiated at input `"yes"` and its unique result. -/
theorem claim_C10_witness :
    ((mkVocabMatch vocabEntry13.2 conf1 "yes").confidence = conf1 ∨
     (mkVocabMatch vocabEntry13.2 conf1 "yes").confidence = conf085 ∨
     (mkVocabMatch vocabEntry13.2 conf1 "yes").confidence = conf05) ∧
    0 ≤ (mkVocabMatch vocabEntry13.2 conf1 "yes").confidence ∧
    (mkVocabMatch vocabEntry13.2 conf1 "yes").confidence ≤ 1 :=
  claim_C10 "yes" (mkVocabMatch vocabEntry13.2 conf1 "yes") (by decide)

theorem gemini_calls_le_one (env : RemoteEnv) : (gemini_match_signs env).calls ≤ 1 := by
  rw [gemini_match_signs]
  split
  · simp
  · split
    · simp
    · split <;> simp

/-- C6: the remote matcher never raises past its boundary: with no credential
configured it returns `(None, reason)` with zero calls attempted; a transport
error or a parse failure yields `(None, error-detail)`; the handler makes at
most one remote call per request (no retry); and whenever the remote matcher
returns `None`, the handler answers with the local matcher's results and
method `"local"`. -/
theorem claim_C6 :
    (∀ env : RemoteEnv, env.apiKey = "" →
      gemini_match_signs env =
        { result := none, error := some "No API key configured", calls := 0 }) ∧
    (∀ (env : RemoteEnv) (e : String), env.apiKey ≠ "" →
      env.callResult = Except.error e →
      gemini_match_signs env =
        { result := none, error := some ("Gemini API error: " ++ e), calls := 1 }) ∧
    (∀ (env : RemoteEnv) (raw e : String), env.apiKey ≠ "" →
      env.callResult = Except.ok raw → env.parse (cleanResponse raw) = Except.error e →
      gemini_match_signs env =
        { result := none, error := some ("Failed to parse Gemini response: " ++ e),
          calls := 1 }) ∧
    (∀ (env : RemoteEnv) (req : Option MatchRequest), (match_signs env req).calls ≤ 1) ∧
    (∀ (env : RemoteEnv) (r : MatchRequest) (s : String),
      r.text = some (JVal.jstr s) → pyStrip s ≠ "" → r.force_fingerspell = false →
      (gemini_match_signs env).result = none →
      (match_signs env (some r)).method = some "local" ∧
      (match_signs env (some r)).signs = local_match_signs (truncate2000 s)) := by
  refine ⟨?_, ?_, ?_, ?_, ?_⟩
  · intro env h
    simp [gemini_match_signs, h]
  · intro env e hk hc
    simp [gemini_match_signs, hk, hc]
  · intro env raw e hk hc hp
    simp [gemini_match_signs, hk, hc, hp]
  · intro env req
    rcases req with _ | ⟨rt, ru, rf⟩
    · simp [match_signs]
    · rcases rt with _ | jv
      · simp [match_signs]
      · rcases jv with s | _
        · by_cases hs : pyStrip s = ""
          · simp [match_signs, hs]
          · by_cases hf : rf = true
            · simp [match_signs, hs, hf]
            · by_cases hai : ru = true ∧ ¬env.apiKey = ""
              · cases hg : (gemini_match_signs env).result with
                | some signs =>
                  simp [match_signs, hs, hf, hai, hg, gemini_calls_le_one env]
                | none =>
                  simp [match_signs, hs, hf, hai, hg, gemini_calls_le_one env]
              · simp [match_signs, hs, hf, hai]
        · simp [match_signs]
  · intro env r s ht hs hf hres
    rcases r with ⟨rt, ru, rf⟩
    simp only at ht hf
    subst ht hf
    by_cases hai : ru = true ∧ ¬env.apiKey = ""
    · simp [match_signs, hs, hai, hres]
    · simp [match_signs, hs, hai]

/-- C6 witness: with no credential configured the remote matcher returns
`(None, "No API key configured")` without attempting a call. -/
theorem claim_C6_witness :
    gemini_match_signs sampleEnv =
      { result := none, error := some "No API key configured", calls := 0 } :=
  claim_C6.1 sampleEnv (by decide)

/-- C7: a missing, non-string, or whitespace-only `text` yields the HTTP 400
response `{signs: [], method: "none", error: "No text provided"}`, while every
valid text yields an HTTP 200 response with no error and a method that is
`"fingerspell"`, `"gemini"` or `"local"` — so a validation failure is distinct
from a successful empty match list. -/
theorem claim_C7 :
    (∀ (env : RemoteEnv) (req : MatchRequest), req.text = none →
      match_signs env (some req) =
        { status := 400, signs := [], method := some "none",
          error := some "No text provided", text := none, calls := 0 }) ∧
    (∀ (env : RemoteEnv) (req : MatchRequest), req.text = some JVal.jother →
      match_signs env (some req) =
        { status := 400, signs := [], method := some "none",
          error := some "No text provided", text := none, calls := 0 }) ∧
    (∀ (env : RemoteEnv) (req : MatchRequest) (s : String),
      req.text = some (JVal.jstr s) → pyStrip s = "" →
      match_signs env (some req) =
        { status := 400, signs := [], method := some "none",
          error := some "No text provided", text := none, calls := 0 }) ∧
    (∀ (env : RemoteEnv) (req : MatchRequest) (s : String),
      req.text = some (JVal.jstr s) → pyStrip s ≠ "" →
      (match_signs env (some req)).status = 200 ∧
      (match_signs env (some req)).error = none ∧
      ((match_signs env (some req)).method = some "fingerspell" ∨
       (match_signs env (some req)).method = some "gemini" ∨
       (match_signs env (some req)).method = some "local")) := by
  refine ⟨?_, ?_, ?_, ?_⟩
  · intro env req ht
    rcases req with ⟨rt, ru, rf⟩
    simp only at ht
    subst ht
    simp [match_signs]
  · intro env req ht
    rcases req with ⟨rt, ru, rf⟩
    simp only at ht
    subst ht
    simp [match_signs]
  · intro env req s ht hs
    rcases req with ⟨rt, ru, rf⟩
    simp only at ht
    subst ht
    simp [match_signs, hs]
  · intro env req s ht hs
    rcases req with ⟨rt, ru, rf⟩
    simp only at ht
    subst ht
    by_cases hf : rf = true
    · simp [match_signs, hs, hf]
    · by_cases hai : ru = true ∧ ¬env.apiKey = ""
      · cases hg : (gemini_match_signs env).result with
        | some signs => simp [match_signs, hs, hf, hai, hg]
        | none => simp [match_signs, hs, hf, hai, hg]
      · simp [match_signs, hs, hf, hai]

/-- C7 witness: the request `{"text": "  "}` yields the 400 response with
method `"none"`. -/
theorem claim_C7_witness :
    match_signs sampleEnv
        (some { text := some (JVal.jstr "  "), use_ai := true, force_fingerspell := false }) =
      { status := 400, signs := [], method := some "none",
        error := some "No text provided", text := none, calls := 0 } :=
  claim_C7.2.2.1 sampleEnv
    { text := some (JVal.jstr "  "), use_ai := true, force_fingerspell := false }
    "  " rfl (by decide)

/-- C8: with `force_fingerspell` the handler tokenizes the trimmed,
2000-character-truncated text on non-alphanumeric boundaries and answers
HTTP 200 with method `"fingerspell"` and no remote call; the signs are exactly
one fingerspelled MatchResult per token containing at least one letter, in
token order, with `letters` the alphabetic characters of the token and
confidence fixed at 1.0, tokens without letters being skipped; and for text
`"hello"` the response is a single fingerspelled entry. -/
theorem claim_C8 :
    (∀ (env : RemoteEnv) (r : MatchRequest) (s : String),
      r.text = some (JVal.jstr s) → pyStrip s ≠ "" → r.force_fingerspell = true →
      (match_signs env (some r)).status = 200 ∧
      (match_signs env (some r)).method = some "fingerspell" ∧
      (match_signs env (some r)).calls = 0 ∧
      (match_signs env (some r)).signs = forceFingerspellSigns (truncate2000 s) ∧
      ((match_signs env (some r)).signs.map (·.matched_from)) =
        ((splitWs (ffReplace (truncate2000 s).data)).filter
          (fun w => w.any Char.isAlpha)).map (fun w => (⟨w⟩ : String)) ∧
      ∀ sg ∈ (match_signs env (some r)).signs,
        sg.category = "fingerspelled" ∧ sg.confidence = conf1 ∧
        sg.letters = some (sg.matched_from.data.filter Char.isAlpha)) ∧
    (match_signs sampleEnv
        (some { text := some (JVal.jstr "hello"), use_ai := true,
                force_fingerspell := true })).signs =
      [mkFingerspell "hello" ['h', 'e', 'l', 'l', 'o'] conf1] ∧
    (match_signs sampleEnv
        (some { text := some (JVal.jstr "hello"), use_ai := true,
                force_fingerspell := true })).method = some "fingerspell" := by
  refine ⟨?_, by decide, by decide⟩
  intro env r s ht hs hf
  rcases r with ⟨rt, ru, rf⟩
  simp only at ht hf
  subst ht hf
  have hms : match_signs env
      (some { text := some (JVal.jstr s), use_ai := ru, force_fingerspell := true }) =
      { status := 200, signs := forceFingerspellSigns (truncate2000 s),
        method := some "fingerspell", error := none,
        text := some (truncate2000 s), calls := 0 } := by
    simp [match_signs, hs]
  rw [hms]
  refine ⟨rfl, rfl, rfl, rfl, forceFingerspellSigns_map _, ?_⟩
  intro sg hsg
  exact forceFingerspellSigns_mem hsg

/-- C8 witness: instantiated at text `"hello"` with `force_fingerspell`. -/
theorem claim_C8_witness :
    (match_signs sampleEnv
        (some { text := some (JVal.jstr "hello"), use_ai := true,
                force_fingerspell := true })).method = some "fingerspell" :=
  (claim_C8.1 sampleEnv
    { text := some (JVal.jstr "hello"), use_ai := true, force_fingerspell := true }
    "hello" rfl (by decide) rfl).2.1

/-- C5 counterexample.  The claim asserts that for EVERY input in which the
same token string occurs more than once, exactly one MatchResult is emitted
for that token string.  For `"123 123"` the token `"123"` occurs twice, but it
matches no key or synonym and has no alphabetic character, so ZERO
MatchResults are emitted for it. -/
theorem claim_C5_counterexample :
    tokenize (pyLower "123 123") = ["123", "123"] ∧
    local_match_signs "123 123" = [] := by
  decide

/-- C5 witness: instantiated at input `"yes yes"` and token `"yes"`. -/
theorem claim_C5_witness :
    ((local_match_signs "yes yes").map (·.matched_from)).count "yes" ≤ 1 :=
  claim_C5.1 "yes yes" "yes"

/-- C1 witness: the amended ordering statement instantiated at `"xyzzy yes"`. -/
theorem claim_C1_witness : ∃ p w f : List MatchResult,
    local_match_signs "xyzzy yes" = p ++ w ++ f ∧
    (p.map (·.matched_from)).Sublist (SIGN_VOCABULARY.map Prod.fst) ∧
    (∀ r ∈ p, r.confidence = conf1 ∧ hasSpace r.matched_from = true) ∧
    (w.map (·.matched_from)).Sublist (tokenize (pyLower "xyzzy yes")) ∧
    (∀ r ∈ w, (r.confidence = conf1 ∨ r.confidence = conf085) ∧ r.letters = none) ∧
    (f.map (·.matched_from)).Sublist (tokenize (pyLower "xyzzy yes")) ∧
    (∀ r ∈ f, r.category = "fingerspelled" ∧ r.confidence = conf05) :=
  claim_C1 "xyzzy yes"
